import Mathlib

/-!
Shallow embedding of the car-rental intake bot (`src/car_rental_intake.py`).

The conversational handlers are modelled as pure functions from their inputs
(the session's `Listing`, the incoming text or photo list, the callback data)
to a result holding the next conversation state, the updated listing (or the
whole per-user storage, for the callback handler), and the list of outbound
side effects, in order.  Python floats are modelled as exact rationals `ℚ`;
Telegram photo inputs are modelled as the list of size-variant file ids, in
ascending resolution order, as delivered by the platform.
-/

namespace CarRental

/-- Conversation states of the `ConversationHandler`, plus `END`
(`ConversationHandler.END`, the terminal return value). -/
inductive ConvState where
  | NAME
  | CATEGORY
  | PRICE
  | PHOTO1
  | PHOTO2
  | REVIEW
  | EDIT_NAME
  | EDIT_PRICE
  | EDIT_CAT
  | EDIT_P1
  | EDIT_P2
  | END
deriving DecidableEq, Repr

/-- The `Listing` dataclass: name, category, price per day, two photo ids. -/
structure Listing where
  name : String
  category : String
  price_per_day : Rat
  photo1_id : Option String
  photo2_id : Option String
deriving DecidableEq, Repr

/-- A fresh `Listing()` with the dataclass defaults. -/
def Listing.empty : Listing :=
  { name := "", category := "", price_per_day := 0, photo1_id := none, photo2_id := none }

/-- The fixed category set `CATEGORIES`. -/
def CATEGORIES : List String := ["Exotic", "Economic", "Luxury"]

/-- Whitespace characters stripped by Python `str.strip()`. -/
def isPySpace (c : Char) : Bool :=
  c == ' ' || c == '\t' || c == '\n' || c == '\r' || c == '\x0b' || c == '\x0c'

/-- Python `str.strip()`: drop whitespace from both ends. -/
def pyStrip (s : String) : String :=
  String.mk (((s.data.dropWhile isPySpace).reverse.dropWhile isPySpace).reverse)

/-- Worker for Python `str.title()` over ASCII: the boolean records whether the
previous character was alphabetic. -/
def titleCore : Bool → List Char → List Char
  | _, [] => []
  | prevAlpha, c :: cs =>
    if c.isAlpha then
      (if prevAlpha then c.toLower else c.toUpper) :: titleCore true cs
    else
      c :: titleCore false cs

/-- Python `str.title()` (ASCII fragment): uppercase the first character of
every alphabetic run, lowercase the rest. -/
def pyTitle (s : String) : String :=
  String.mk (titleCore false s.data)

/-- Numeric value of a list of decimal digit characters (empty list is 0,
matching the use on the two sides of the decimal point). -/
def natOfDigits (cs : List Char) : Nat :=
  cs.foldl (fun acc c => acc * 10 + (c.toNat - 48)) 0

/-- Split a character list on the decimal point, as Python `str.split`
would on each "." separator. -/
def splitOnDot : List Char → List (List Char)
  | [] => [[]]
  | c :: rest =>
    let r := splitOnDot rest
    if c = '.' then [] :: r
    else
      match r with
      | [] => [[c]]
      | h :: t => (c :: h) :: t

/-- Python `float()` applied to the cleaned residue (digits and at most one
decimal point): it fails exactly when no digit is present (the residue "."),
and otherwise denotes the decimal value, here as an exact rational. -/
def pyFloatOfCleaned (cs : List Char) : Option Rat :=
  match splitOnDot cs with
  | [ip] => if ip = [] then none else some (mkRat (natOfDigits ip) 1)
  | [ip, fp] =>
    if ip = [] && fp = [] then none
    else some (mkRat (natOfDigits (ip ++ fp)) (10 ^ fp.length))
  | _ => none

/-- The residue of `re.sub(r"[^\d.]", "", text)`: every character that is not
a digit or a decimal point is removed. -/
def stripNonDigitDot (s : String) : List Char :=
  s.data.filter (fun c => c.isDigit || c == '.')

/-- The price validator `clean_price`. -/
def clean_price (text : String) : Option Rat :=
  let cleaned := stripNonDigitDot text
  if 1 < cleaned.count '.' || cleaned = [] then none
  else
    match pyFloatOfCleaned cleaned with
    | none => none
    | some val => if 0 ≤ val then some val else none

/-- Python truthiness of a string: nonempty. -/
def truthyStr (s : String) : Bool := decide (s ≠ "")

/-- Python truthiness of an optional string field: present and nonempty. -/
def truthyOpt : Option String → Bool
  | none => false
  | some s => decide (s ≠ "")

/-- The completeness test guarding `submit` in `review_actions`:
`lst.name and lst.category and lst.price_per_day and lst.photo1_id and lst.photo2_id`. -/
def listingComplete (lst : Listing) : Bool :=
  truthyStr lst.name && truthyStr lst.category && decide (lst.price_per_day ≠ 0) &&
    truthyOpt lst.photo1_id && truthyOpt lst.photo2_id

/-- Insert thousands separators into a reversed digit list, grouping by three
from the least significant digit. -/
def commaGroupRev : List Char → List Char
  | a :: b :: c :: d :: rest => a :: b :: c :: ',' :: commaGroupRev (d :: rest)
  | l => l

/-- Floor of a rational, computed on the normalized numerator and denominator. -/
def ratFloor (q : Rat) : Int := Int.fdiv q.num (Int.ofNat q.den)

/-- Round a rational to the nearest integer, ties to even, as Python float
formatting does on the decimal expansion. -/
def roundHalfEven (x : Rat) : Int :=
  let n := ratFloor x
  let r := x - (n : Rat)
  if r < mkRat 1 2 then n
  else if mkRat 1 2 < r then n + 1
  else if n % 2 = 0 then n else n + 1

/-- Python `format(q, ",.2f")` for the nonnegative prices this bot renders:
two decimals, thousands separators.  The source formats the binary float;
here the same rule is applied to the exact rational. -/
def formatMoney (q : Rat) : String :=
  let cents := (roundHalfEven (q * 100)).toNat
  let whole := cents / 100
  let frac := cents % 100
  String.mk (commaGroupRev (Nat.repr whole).data.reverse).reverse ++ "." ++
    (if frac < 10 then "0" else "") ++ Nat.repr frac

/-- The preview block `format_preview`: each scalar field or a placeholder,
and a set/missing indicator per photo. -/
def format_preview (lst : Listing) : String :=
  let p1 := if truthyOpt lst.photo1_id then "✅ set" else "❌ missing"
  let p2 := if truthyOpt lst.photo2_id then "✅ set" else "❌ missing"
  "*Car Rental Listing*\n" ++
    "*Name:* " ++ (if lst.name = "" then "—" else lst.name) ++ "\n" ++
    "*Category:* " ++ (if lst.category = "" then "—" else lst.category) ++ "\n" ++
    "*Price/Day:* " ++
      (if lst.price_per_day ≠ 0 then "$" ++ formatMoney lst.price_per_day else "—") ++ "\n" ++
    "*Photo #1:* " ++ p1 ++ "\n" ++
    "*Photo #2:* " ++ p2 ++ "\n\n" ++
    "Use the buttons below to edit or submit."

/-- Outbound side effects, in the order the handlers perform them.
`reply` is a message to the user's chat; `editMessage` edits the message the
pressed button was attached to; `preview` is `send_preview` (the rendered
preview text with the review keyboard attached); `adminMessage` and
`adminMediaGroup` are sends addressed to `ADMIN_CHAT_ID`; `answerCallback`
acknowledges a callback query. -/
inductive Effect where
  | answerCallback
  | reply (text : String)
  | editMessage (text : String)
  | preview (text : String)
  | adminMessage (text : String)
  | adminMediaGroup (photo1 photo2 : Option String)
deriving DecidableEq, Repr

/-- True for the effects addressed to the Administrative Sink. -/
def isAdminEffect : Effect → Bool
  | Effect.adminMessage _ => true
  | Effect.adminMediaGroup _ _ => true
  | _ => false

/-- Result of a message handler: next state, updated listing, side effects. -/
structure HandlerResult where
  state : ConvState
  listing : Listing
  effects : List Effect
deriving DecidableEq, Repr

/-- Result of an entry point or the callback handler: next state, the whole
per-user storage (`context.user_data` projected to its "listing" slot), and
the side effects. -/
structure StepResult where
  state : ConvState
  userData : Option Listing
  effects : List Effect
deriving DecidableEq, Repr

/-- Environment of a `review_actions` invocation: the configured
`ADMIN_CHAT_ID` (0 is the unset sentinel), the submitting user's username and
id, and `failAt`, which selects the first of the three admin transport calls
to raise (header, summary, media group, 0-based); `none` means every send
succeeds. -/
structure SubmitEnv where
  adminChatId : Int
  username : Option String
  userId : Int
  failAt : Option (Fin 3)
deriving DecidableEq, Repr

def startMsg : String :=
  "Hi! Let’s add a car rental listing.\n\nSend the *Vehicle Name* (e.g., \x27BMW M4 Competition\x27)."

def categoryPromptMsg : String := "Choose a *Category*:"

def categoryChooseMsg : String := "Please choose: Exotic, Economic, or Luxury."

def pricePromptMsg : String := "Enter the *Price per day* (e.g., 149.99):"

def priceInvalidMsg : String := "Please send a valid number (e.g., 149.99)."

def photo1PromptMsg : String := "Send *Photo #1* as a Photo (not as a file)."

def photoNotDocMsg : String := "Please send a *photo* (not a document)."

def photo2PromptMsg : String := "Great! Now send *Photo #2*."

def noActiveMsg : String := "No active listing. Use /start to begin."

def editNamePromptMsg : String := "Send the new *Vehicle Name*:"

def editCatPromptMsg : String := "Choose the new *Category*:"

def editPricePromptMsg : String := "Send the new *Price per day* (e.g., 159.99):"

def editP1PromptMsg : String := "Send the new *Photo #1*."

def editP2PromptMsg : String := "Send the new *Photo #2*."

def editPhotoMsg : String := "Please send a *photo*."

def incompleteMsg : String := "Listing is incomplete. Please fill all fields and set both photos."

def adminNotSetMsg : String :=
  "Admin chat not set yet. Send /id to the bot and put that number into ADMIN_CHAT_ID in your .env, then restart."

def deliveryFailedMsg : String := "Sorry, I couldn’t deliver this to the admin. Try again later."

def submittedMsg : String := "✅ Submitted! Thanks—your listing was sent to the admin."

def cancelledMsg : String := "❌ Cancelled. Use /start to begin again."

/-- `cmd_start`: put a fresh empty `Listing` into the session and move to
`NAME`. -/
def cmd_start : StepResult :=
  ⟨ConvState.NAME, some Listing.empty, [Effect.reply startMsg]⟩

/-- `cmd_cancel`: clear the per-user storage and end the conversation. -/
def cmd_cancel : StepResult :=
  ⟨ConvState.END, none, [Effect.reply cancelledMsg]⟩

/-- `handle_name`: store the stripped text as the name and move to
`CATEGORY`. -/
def handle_name (lst : Listing) (text : String) : HandlerResult :=
  ⟨ConvState.CATEGORY, { lst with name := pyStrip text }, [Effect.reply categoryPromptMsg]⟩

/-- `handle_category`: title-case the stripped text; reject anything outside
`CATEGORIES`, else store it and move to `PRICE`. -/
def handle_category (lst : Listing) (text : String) : HandlerResult :=
  let choice := pyTitle (pyStrip text)
  if choice ∉ CATEGORIES then
    ⟨ConvState.CATEGORY, lst, [Effect.reply categoryChooseMsg]⟩
  else
    ⟨ConvState.PRICE, { lst with category := choice }, [Effect.reply pricePromptMsg]⟩

/-- `handle_price`: validate with `clean_price`; reject on `None`, else store
the price and move to `PHOTO1`. -/
def handle_price (lst : Listing) (text : String) : HandlerResult :=
  match clean_price text with
  | none => ⟨ConvState.PRICE, lst, [Effect.reply priceInvalidMsg]⟩
  | some price =>
    ⟨ConvState.PHOTO1, { lst with price_per_day := price }, [Effect.reply photo1PromptMsg]⟩

/-- `handle_photo1`: require a photo; keep the last (highest-resolution)
variant's file id and move to `PHOTO2`. -/
def handle_photo1 (lst : Listing) (photos : List String) : HandlerResult :=
  match photos.getLast? with
  | none => ⟨ConvState.PHOTO1, lst, [Effect.reply photoNotDocMsg]⟩
  | some fid =>
    ⟨ConvState.PHOTO2, { lst with photo1_id := some fid }, [Effect.reply photo2PromptMsg]⟩

/-- `handle_photo2`: require a photo; keep the last variant's file id, send
the preview and move to `REVIEW`. -/
def handle_photo2 (lst : Listing) (photos : List String) : HandlerResult :=
  match photos.getLast? with
  | none => ⟨ConvState.PHOTO2, lst, [Effect.reply photoNotDocMsg]⟩
  | some fid =>
    let lst' := { lst with photo2_id := some fid }
    ⟨ConvState.REVIEW, lst', [Effect.preview (format_preview lst')]⟩

/-- `edit_name`: store the stripped text and return to `REVIEW` with a fresh
preview. -/
def edit_name (lst : Listing) (text : String) : HandlerResult :=
  let lst' := { lst with name := pyStrip text }
  ⟨ConvState.REVIEW, lst', [Effect.preview (format_preview lst')]⟩

/-- `edit_cat`: same validation as `handle_category`; reject with a self-loop
in `EDIT_CAT`, else store and return to `REVIEW`. -/
def edit_cat (lst : Listing) (text : String) : HandlerResult :=
  let choice := pyTitle (pyStrip text)
  if choice ∉ CATEGORIES then
    ⟨ConvState.EDIT_CAT, lst, [Effect.reply categoryChooseMsg]⟩
  else
    let lst' := { lst with category := choice }
    ⟨ConvState.REVIEW, lst', [Effect.preview (format_preview lst')]⟩

/-- `edit_price`: same validation as `handle_price`; reject with a self-loop
in `EDIT_PRICE`, else store and return to `REVIEW`. -/
def edit_price (lst : Listing) (text : String) : HandlerResult :=
  match clean_price text with
  | none => ⟨ConvState.EDIT_PRICE, lst, [Effect.reply priceInvalidMsg]⟩
  | some price =>
    let lst' := { lst with price_per_day := price }
    ⟨ConvState.REVIEW, lst', [Effect.preview (format_preview lst')]⟩

/-- `edit_p1`: require a photo; self-loop in `EDIT_P1` otherwise, else store
the last variant's file id and return to `REVIEW`. -/
def edit_p1 (lst : Listing) (photos : List String) : HandlerResult :=
  match photos.getLast? with
  | none => ⟨ConvState.EDIT_P1, lst, [Effect.reply editPhotoMsg]⟩
  | some fid =>
    let lst' := { lst with photo1_id := some fid }
    ⟨ConvState.REVIEW, lst', [Effect.preview (format_preview lst')]⟩

/-- `edit_p2`: require a photo; self-loop in `EDIT_P2` otherwise, else store
the last variant's file id and return to `REVIEW`. -/
def edit_p2 (lst : Listing) (photos : List String) : HandlerResult :=
  match photos.getLast? with
  | none => ⟨ConvState.EDIT_P2, lst, [Effect.reply editPhotoMsg]⟩
  | some fid =>
    let lst' := { lst with photo2_id := some fid }
    ⟨ConvState.REVIEW, lst', [Effect.preview (format_preview lst')]⟩

/-- The header line of the admin submission. -/
def submitHeader (env : SubmitEnv) : String :=
  "📩 *Submitted by:* @" ++
    (match env.username with
     | none => "unknown"
     | some u => if u = "" then "unknown" else u) ++
    " (id: " ++ toString env.userId ++ ")"

/-- The summary line of the admin submission: the three scalar fields. -/
def submitSummary (lst : Listing) : String :=
  "*Name:* " ++ lst.name ++ "\n" ++
    "*Category:* " ++ lst.category ++ "\n" ++
    "*Price/Day:* $" ++ formatMoney lst.price_per_day

/-- The three transport calls of a successful submission, in program order:
header message, summary message, grouped pair of photos. -/
def adminSends (env : SubmitEnv) (lst : Listing) : List Effect :=
  [Effect.adminMessage (submitHeader env),
   Effect.adminMessage (submitSummary lst),
   Effect.adminMediaGroup lst.photo1_id lst.photo2_id]

/-- `review_actions`: the callback-query handler for the `REVIEW` state.
Dispatches on the callback data; `ud` is the "listing" slot of the per-user
storage (`context.user_data.get("listing")`). -/
def review_actions (env : SubmitEnv) (data : String) (ud : Option Listing) : StepResult :=
  match ud with
  | none => ⟨ConvState.END, none, [Effect.answerCallback, Effect.editMessage noActiveMsg]⟩
  | some lst =>
    if data = "edit_name" then
      ⟨ConvState.EDIT_NAME, some lst, [Effect.answerCallback, Effect.reply editNamePromptMsg]⟩
    else if data = "edit_cat" then
      ⟨ConvState.EDIT_CAT, some lst, [Effect.answerCallback, Effect.reply editCatPromptMsg]⟩
    else if data = "edit_price" then
      ⟨ConvState.EDIT_PRICE, some lst, [Effect.answerCallback, Effect.reply editPricePromptMsg]⟩
    else if data = "edit_p1" then
      ⟨ConvState.EDIT_P1, some lst, [Effect.answerCallback, Effect.reply editP1PromptMsg]⟩
    else if data = "edit_p2" then
      ⟨ConvState.EDIT_P2, some lst, [Effect.answerCallback, Effect.reply editP2PromptMsg]⟩
    else if data = "submit" then
      if !listingComplete lst then
        ⟨ConvState.REVIEW, some lst,
          [Effect.answerCallback, Effect.reply incompleteMsg,
           Effect.preview (format_preview lst)]⟩
      else if env.adminChatId = 0 then
        ⟨ConvState.REVIEW, some lst, [Effect.answerCallback, Effect.reply adminNotSetMsg]⟩
      else
        match env.failAt with
        | none =>
          ⟨ConvState.END, none,
            Effect.answerCallback :: adminSends env lst ++ [Effect.reply submittedMsg]⟩
        | some k =>
          ⟨ConvState.END, some lst,
            Effect.answerCallback :: (adminSends env lst).take k.val ++
              [Effect.reply deliveryFailedMsg]⟩
    else if data = "cancel" then
      ⟨ConvState.END, none, [Effect.answerCallback, Effect.reply cancelledMsg]⟩
    else
      ⟨ConvState.REVIEW, some lst, [Effect.answerCallback]⟩

/-- A complete sample listing, the result of the spec's round-trip intake. -/
def sampleListing : Listing :=
  { name := "BMW M4", category := "Exotic", price_per_day := mkRat 14999 100,
    photo1_id := some "P1", photo2_id := some "P2" }

/-- An environment with the Administrative Sink configured and reachable. -/
def envOk : SubmitEnv :=
  { adminChatId := 777, username := some "alice", userId := 42, failAt := none }

/-- An environment where the very first admin transport call raises. -/
def envFail : SubmitEnv :=
  { adminChatId := 777, username := some "alice", userId := 42, failAt := some 0 }

/-- An environment with the Administrative Sink identity left at the 0
sentinel. -/
def envUnset : SubmitEnv :=
  { adminChatId := 0, username := some "alice", userId := 42, failAt := none }

/-- Round-trip intake, step 1: the name "BMW M4". -/
def roundTrip1 : HandlerResult := handle_name Listing.empty "BMW M4"

/-- Round-trip intake, step 2: the category "Exotic". -/
def roundTrip2 : HandlerResult := handle_category roundTrip1.listing "Exotic"

/-- Round-trip intake, step 3: the price "149.99". -/
def roundTrip3 : HandlerResult := handle_price roundTrip2.listing "149.99"

/-- Round-trip intake, step 4: photo P1. -/
def roundTrip4 : HandlerResult := handle_photo1 roundTrip3.listing ["P1"]

/-- Round-trip intake, step 5: photo P2. -/
def roundTrip5 : HandlerResult := handle_photo2 roundTrip4.listing ["P2"]

/-- Claim C1, counterexample: the spec says `clean_price("-5")` is invalid,
but the code strips the minus sign before parsing, so the input "-5" cleans
to "5" and is accepted with value 5. -/
theorem clean_price_negative_counterexample :
    clean_price "-5" = some 5 ∧ clean_price "-5" ≠ none := by decide

/-- Claim C1 (amended): after stripping every character that is not a digit
or a decimal point, `clean_price` fails when more than one decimal point
remains or the remaining string is empty or it does not parse as a
non-negative real; the spec's examples hold except "-5", whose minus sign is
stripped so that it is accepted as 5. -/
theorem clean_price_spec_examples :
    clean_price "149.99" = some (149.99 : Rat) ∧
    clean_price "1.2.3" = none ∧
    clean_price "abc" = none ∧
    clean_price "-5" = some 5 ∧
    clean_price "" = none ∧
    (∀ s : String, 1 < (stripNonDigitDot s).count '.' → clean_price s = none) ∧
    (∀ s : String, stripNonDigitDot s = [] → clean_price s = none) := by
  refine ⟨?_, by decide, by decide, by decide, by decide, ?_, ?_⟩
  · have h : clean_price "149.99" = some (mkRat 14999 100) := by decide
    rw [h]
    norm_num [Rat.mkRat_eq_div]
  · intro s hs
    simp [clean_price, hs]
  · intro s hs
    simp [clean_price, hs]

/-- Claim C1, witness: the two conditional clauses of the theorem applied at
concrete inputs. -/
theorem clean_price_spec_examples_witness :
    clean_price "1.2.3" = none ∧ clean_price "zzz" = none :=
  ⟨clean_price_spec_examples.2.2.2.2.2.1 "1.2.3" (by decide),
   clean_price_spec_examples.2.2.2.2.2.2 "zzz" (by decide)⟩

/-- Claim C10: `clean_price` is total by construction and every value it
returns is non-negative; the residue "." fails to parse and yields `none`. -/
theorem clean_price_safe :
    (∀ (s : String) (v : Rat), clean_price s = some v → 0 ≤ v) ∧
    clean_price "." = none := by
  refine ⟨?_, by decide⟩
  intro s v h
  simp only [clean_price] at h
  split at h
  · exact absurd h (by simp)
  · split at h
    · exact absurd h (by simp)
    · split at h
      · rename_i val hval hge
        cases h
        exact hge
      · exact absurd h (by simp)

/-- Claim C10, witness: the non-negativity clause applied at a concrete
accepted input. -/
theorem clean_price_safe_witness : 0 ≤ (5 : Rat) :=
  clean_price_safe.1 "-5" 5 (by decide)

/-- Claim C3, counterexample: the spec says an input that is empty after
trimming is rejected with a self-loop, but `handle_name` performs no
emptiness check: on whitespace-only input the state advances to `CATEGORY`
and the name is overwritten with the empty string. -/
theorem blank_name_advances_counterexample :
    (handle_name sampleListing "   ").state = ConvState.CATEGORY ∧
    (handle_name sampleListing "   ").listing.name = "" ∧
    sampleListing.name = "BMW M4" :=
  ⟨rfl, by decide, rfl⟩

/-- Claim C3 (amended): in `NAME` and `EDIT_NAME` every text input is
accepted — the name is set to the input trimmed of surrounding whitespace,
possibly empty, and the state always advances (`NAME → CATEGORY`,
`EDIT_NAME → REVIEW` with a fresh preview); there is no emptiness
validation or self-loop. -/
theorem name_input_always_accepted (lst : Listing) (text : String) :
    handle_name lst text =
      ⟨ConvState.CATEGORY, { lst with name := pyStrip text },
       [Effect.reply categoryPromptMsg]⟩ ∧
    edit_name lst text =
      ⟨ConvState.REVIEW, { lst with name := pyStrip text },
       [Effect.preview (format_preview { lst with name := pyStrip text })]⟩ :=
  ⟨rfl, rfl⟩

/-- Claim C9: any review-action callback arriving with no owned listing in
the per-user storage leaves the storage untouched, emits the "no active
listing" message, and ends the conversation, for every callback data. -/
theorem orphan_review_action (env : SubmitEnv) (data : String) :
    review_actions env data none =
      ⟨ConvState.END, none, [Effect.answerCallback, Effect.editMessage noActiveMsg]⟩ :=
  rfl

/-- Claim C4: pressing submit with any of the five fields unset sends
nothing to the Administrative Sink, leaves the listing unchanged, replies
with the corrective notice and re-renders the preview, and stays in
`REVIEW`. -/
theorem submit_incomplete_rejected (env : SubmitEnv) (lst : Listing)
    (h : lst.name = "" ∨ lst.category = "" ∨ lst.price_per_day = 0 ∨
         lst.photo1_id = none ∨ lst.photo2_id = none) :
    review_actions env "submit" (some lst) =
      ⟨ConvState.REVIEW, some lst,
       [Effect.answerCallback, Effect.reply incompleteMsg,
        Effect.preview (format_preview lst)]⟩ ∧
    ∀ e ∈ (review_actions env "submit" (some lst)).effects, isAdminEffect e = false := by
  have hc : listingComplete lst = false := by
    rcases h with h | h | h | h | h <;>
      simp [listingComplete, truthyStr, truthyOpt, h]
  have heq : review_actions env "submit" (some lst) =
      ⟨ConvState.REVIEW, some lst,
       [Effect.answerCallback, Effect.reply incompleteMsg,
        Effect.preview (format_preview lst)]⟩ := by
    show (if !listingComplete lst then _ else _ : StepResult) = _
    rw [hc]; rfl
  refine ⟨heq, ?_⟩
  intro e he
  rw [heq] at he
  simp only [List.mem_cons, List.not_mem_nil, or_false] at he
  rcases he with rfl | rfl | rfl <;> rfl

/-- Claim C4, witness: the theorem applied to the empty listing. -/
theorem submit_incomplete_rejected_witness :
    review_actions envOk "submit" (some Listing.empty) =
      ⟨ConvState.REVIEW, some Listing.empty,
       [Effect.answerCallback, Effect.reply incompleteMsg,
        Effect.preview (format_preview Listing.empty)]⟩ :=
  (submit_incomplete_rejected envOk Listing.empty (Or.inl rfl)).1

/-- Claim C8: with the Administrative Sink identity at the 0 sentinel, a
submit on a complete listing sends nothing to the sink, replies with the
configuration instruction, and stays in `REVIEW` with the listing
unchanged. -/
theorem submit_admin_unset_refused (env : SubmitEnv) (lst : Listing)
    (hc : listingComplete lst = true) (ha : env.adminChatId = 0) :
    review_actions env "submit" (some lst) =
      ⟨ConvState.REVIEW, some lst, [Effect.answerCallback, Effect.reply adminNotSetMsg]⟩ ∧
    ∀ e ∈ (review_actions env "submit" (some lst)).effects, isAdminEffect e = false := by
  have heq : review_actions env "submit" (some lst) =
      ⟨ConvState.REVIEW, some lst, [Effect.answerCallback, Effect.reply adminNotSetMsg]⟩ := by
    show (if !listingComplete lst then _ else _ : StepResult) = _
    rw [hc]
    show (if env.adminChatId = 0 then _ else _ : StepResult) = _
    rw [if_pos ha]
  refine ⟨heq, ?_⟩
  intro e he
  rw [heq] at he
  simp only [List.mem_cons, List.not_mem_nil, or_false] at he
  rcases he with rfl | rfl <;> rfl

/-- Claim C8, witness: the theorem applied to the sample listing and the
unset-sink environment. -/
theorem submit_admin_unset_refused_witness :
    review_actions envUnset "submit" (some sampleListing) =
      ⟨ConvState.REVIEW, some sampleListing,
       [Effect.answerCallback, Effect.reply adminNotSetMsg]⟩ :=
  (submit_admin_unset_refused envUnset sampleListing (by decide) rfl).1

/-- Claim C2, counterexample: after a failed delivery the session ends, but
the terminating failure path never clears the per-user storage — the listing,
name included, survives in it, contradicting "no Listing field survives". -/
theorem submit_failure_storage_counterexample :
    (review_actions envFail "submit" (some sampleListing)).state = ConvState.END ∧
    (review_actions envFail "submit" (some sampleListing)).userData = some sampleListing ∧
    sampleListing.name = "BMW M4" :=
  ⟨rfl, rfl, rfl⟩

/-- Claim C2 (amended): when delivery to the Administrative Sink fails at
transport call `k`, the user gets the generic apology, the conversation ends
with no retry (only the sends before `k` ever happened), but the listing is
not cleared from the per-user storage: it survives there past the
terminating transition. -/
theorem submit_failure_terminates_listing_survives (env : SubmitEnv) (lst : Listing)
    (k : Fin 3) (hc : listingComplete lst = true) (ha : env.adminChatId ≠ 0)
    (hf : env.failAt = some k) :
    review_actions env "submit" (some lst) =
      ⟨ConvState.END, some lst,
       Effect.answerCallback :: (adminSends env lst).take k.val ++
         [Effect.reply deliveryFailedMsg]⟩ ∧
    (review_actions env "submit" (some lst)).userData = some lst := by
  have heq : review_actions env "submit" (some lst) =
      ⟨ConvState.END, some lst,
       Effect.answerCallback :: (adminSends env lst).take k.val ++
         [Effect.reply deliveryFailedMsg]⟩ := by
    show (if !listingComplete lst then _ else _ : StepResult) = _
    rw [hc]
    show (if env.adminChatId = 0 then _ else _ : StepResult) = _
    rw [if_neg ha, hf]
  exact ⟨heq, by rw [heq]⟩

/-- Claim C2, witness: the theorem applied with the first transport call
failing. -/
theorem submit_failure_terminates_witness :
    review_actions envFail "submit" (some sampleListing) =
      ⟨ConvState.END, some sampleListing,
       [Effect.answerCallback, Effect.reply deliveryFailedMsg]⟩ :=
  (submit_failure_terminates_listing_survives envFail sampleListing 0
    (by decide) (by decide) rfl).1

/-- Claim C6: for a complete listing with the sink configured and every send
succeeding, submit performs exactly one header send, one summary send and one
grouped two-photo send to the sink, in that order, then confirms to the user,
clears the storage and ends the session; the spec's concrete round trip
reaches `REVIEW` with exactly the sample listing and then behaves so. -/
theorem submit_success_delivery (env : SubmitEnv) (lst : Listing)
    (hc : listingComplete lst = true) (ha : env.adminChatId ≠ 0)
    (hf : env.failAt = none) :
    review_actions env "submit" (some lst) =
      ⟨ConvState.END, none,
       [Effect.answerCallback,
        Effect.adminMessage (submitHeader env),
        Effect.adminMessage (submitSummary lst),
        Effect.adminMediaGroup lst.photo1_id lst.photo2_id,
        Effect.reply submittedMsg]⟩ ∧
    cmd_start = ⟨ConvState.NAME, some Listing.empty, [Effect.reply startMsg]⟩ ∧
    roundTrip1.state = ConvState.CATEGORY ∧
    roundTrip2.state = ConvState.PRICE ∧
    roundTrip3.state = ConvState.PHOTO1 ∧
    roundTrip4.state = ConvState.PHOTO2 ∧
    roundTrip5.state = ConvState.REVIEW ∧
    roundTrip5.listing = sampleListing := by
  have heq : review_actions env "submit" (some lst) =
      ⟨ConvState.END, none,
       [Effect.answerCallback,
        Effect.adminMessage (submitHeader env),
        Effect.adminMessage (submitSummary lst),
        Effect.adminMediaGroup lst.photo1_id lst.photo2_id,
        Effect.reply submittedMsg]⟩ := by
    show (if !listingComplete lst then _ else _ : StepResult) = _
    rw [hc]
    show (if env.adminChatId = 0 then _ else _ : StepResult) = _
    rw [if_neg ha, hf]
    rfl
  exact ⟨heq, rfl, rfl, rfl, rfl, rfl, rfl, by decide⟩

/-- Claim C6, witness: the theorem applied to the round-trip listing and the
reachable-sink environment. -/
theorem submit_success_delivery_witness :
    review_actions envOk "submit" (some sampleListing) =
      ⟨ConvState.END, none,
       [Effect.answerCallback,
        Effect.adminMessage (submitHeader envOk),
        Effect.adminMessage (submitSummary sampleListing),
        Effect.adminMediaGroup (some "P1") (some "P2"),
        Effect.reply submittedMsg]⟩ :=
  (submit_success_delivery envOk sampleListing (by decide) (by decide) rfl).1

/-- Claim C5: in `CATEGORY` and `EDIT_CAT`, an input is accepted iff its
stripped, title-cased form is one of the three categories; on acceptance
that title-cased form is stored and the machine advances (to `PRICE`,
resp. back to `REVIEW`); on any other input the listing and state are
unchanged apart from the re-prompt listing the valid choices; " exotic " is
accepted and stored as "Exotic", "Sports" is rejected. -/
theorem category_validation (lst : Listing) (text : String) :
    ((handle_category lst text).state = ConvState.PRICE ↔
       pyTitle (pyStrip text) ∈ CATEGORIES) ∧
    (pyTitle (pyStrip text) ∈ CATEGORIES →
       handle_category lst text =
         ⟨ConvState.PRICE, { lst with category := pyTitle (pyStrip text) },
          [Effect.reply pricePromptMsg]⟩ ∧
       edit_cat lst text =
         ⟨ConvState.REVIEW, { lst with category := pyTitle (pyStrip text) },
          [Effect.preview
            (format_preview { lst with category := pyTitle (pyStrip text) })]⟩) ∧
    (pyTitle (pyStrip text) ∉ CATEGORIES →
       handle_category lst text =
         ⟨ConvState.CATEGORY, lst, [Effect.reply categoryChooseMsg]⟩ ∧
       edit_cat lst text =
         ⟨ConvState.EDIT_CAT, lst, [Effect.reply categoryChooseMsg]⟩) ∧
    handle_category lst " exotic " =
      ⟨ConvState.PRICE, { lst with category := "Exotic" },
       [Effect.reply pricePromptMsg]⟩ ∧
    handle_category lst "Sports" =
      ⟨ConvState.CATEGORY, lst, [Effect.reply categoryChooseMsg]⟩ := by
  by_cases h : pyTitle (pyStrip text) ∈ CATEGORIES
  · have hcEq : handle_category lst text =
        ⟨ConvState.PRICE, { lst with category := pyTitle (pyStrip text) },
         [Effect.reply pricePromptMsg]⟩ := by
      show (if pyTitle (pyStrip text) ∉ CATEGORIES then _ else _ : HandlerResult) = _
      rw [if_neg (not_not_intro h)]
    have heEq : edit_cat lst text =
        ⟨ConvState.REVIEW, { lst with category := pyTitle (pyStrip text) },
         [Effect.preview
           (format_preview { lst with category := pyTitle (pyStrip text) })]⟩ := by
      show (if pyTitle (pyStrip text) ∉ CATEGORIES then _ else _ : HandlerResult) = _
      rw [if_neg (not_not_intro h)]
    refine ⟨?_, fun _ => ⟨hcEq, heEq⟩, fun hn => absurd h hn, rfl, rfl⟩
    rw [hcEq]
    simpa using h
  · have hcEq : handle_category lst text =
        ⟨ConvState.CATEGORY, lst, [Effect.reply categoryChooseMsg]⟩ := by
      show (if pyTitle (pyStrip text) ∉ CATEGORIES then _ else _ : HandlerResult) = _
      rw [if_pos h]
    have heEq : edit_cat lst text =
        ⟨ConvState.EDIT_CAT, lst, [Effect.reply categoryChooseMsg]⟩ := by
      show (if pyTitle (pyStrip text) ∉ CATEGORIES then _ else _ : HandlerResult) = _
      rw [if_pos h]
    refine ⟨?_, fun hm => absurd hm h, fun _ => ⟨hcEq, heEq⟩, rfl, rfl⟩
    rw [hcEq]
    simp [h]

/-- Claim C5, witness: the acceptance clause applied at a mixed-case input
and the rejection clause at an input outside the category set. -/
theorem category_validation_witness :
    handle_category Listing.empty "eXoTiC" =
      ⟨ConvState.PRICE, { Listing.empty with category := "Exotic" },
       [Effect.reply pricePromptMsg]⟩ ∧
    edit_cat Listing.empty "Sports" =
      ⟨ConvState.EDIT_CAT, Listing.empty, [Effect.reply categoryChooseMsg]⟩ :=
  ⟨((category_validation Listing.empty "eXoTiC").2.1 (by decide)).1,
   ((category_validation Listing.empty "Sports").2.2.1 (by decide)).2⟩

/-- Claim C7: each of the five edit actions taken from `REVIEW` moves to its
edit state without touching the listing, and one valid input there rewrites
exactly the targeted field with its validated value, keeps every other field,
and returns to `REVIEW` re-rendering the full preview. -/
theorem edit_single_field_frame (env : SubmitEnv) (lst : Listing)
    (tname tcat tprice : String) (photos1 photos2 : List String)
    (p : Rat) (f1 f2 : String)
    (hcat : pyTitle (pyStrip tcat) ∈ CATEGORIES)
    (hp : clean_price tprice = some p)
    (h1 : photos1.getLast? = some f1) (h2 : photos2.getLast? = some f2) :
    review_actions env "edit_name" (some lst) =
      ⟨ConvState.EDIT_NAME, some lst,
       [Effect.answerCallback, Effect.reply editNamePromptMsg]⟩ ∧
    review_actions env "edit_cat" (some lst) =
      ⟨ConvState.EDIT_CAT, some lst,
       [Effect.answerCallback, Effect.reply editCatPromptMsg]⟩ ∧
    review_actions env "edit_price" (some lst) =
      ⟨ConvState.EDIT_PRICE, some lst,
       [Effect.answerCallback, Effect.reply editPricePromptMsg]⟩ ∧
    review_actions env "edit_p1" (some lst) =
      ⟨ConvState.EDIT_P1, some lst,
       [Effect.answerCallback, Effect.reply editP1PromptMsg]⟩ ∧
    review_actions env "edit_p2" (some lst) =
      ⟨ConvState.EDIT_P2, some lst,
       [Effect.answerCallback, Effect.reply editP2PromptMsg]⟩ ∧
    edit_name lst tname =
      ⟨ConvState.REVIEW, { lst with name := pyStrip tname },
       [Effect.preview (format_preview { lst with name := pyStrip tname })]⟩ ∧
    edit_cat lst tcat =
      ⟨ConvState.REVIEW, { lst with category := pyTitle (pyStrip tcat) },
       [Effect.preview
         (format_preview { lst with category := pyTitle (pyStrip tcat) })]⟩ ∧
    edit_price lst tprice =
      ⟨ConvState.REVIEW, { lst with price_per_day := p },
       [Effect.preview (format_preview { lst with price_per_day := p })]⟩ ∧
    edit_p1 lst photos1 =
      ⟨ConvState.REVIEW, { lst with photo1_id := some f1 },
       [Effect.preview (format_preview { lst with photo1_id := some f1 })]⟩ ∧
    edit_p2 lst photos2 =
      ⟨ConvState.REVIEW, { lst with photo2_id := some f2 },
       [Effect.preview (format_preview { lst with photo2_id := some f2 })]⟩ := by
  refine ⟨rfl, rfl, rfl, rfl, rfl, rfl, ?_, ?_, ?_, ?_⟩
  · show (if pyTitle (pyStrip tcat) ∉ CATEGORIES then _ else _ : HandlerResult) = _
    rw [if_neg (not_not_intro hcat)]
  · unfold edit_price
    rw [hp]
  · unfold edit_p1
    rw [h1]
  · unfold edit_p2
    rw [h2]

/-- Claim C7, witness: the edit-price clause of the theorem applied at a
concrete listing and the valid input "199.50". -/
theorem edit_single_field_frame_witness :
    edit_price sampleListing "199.50" =
      ⟨ConvState.REVIEW, { sampleListing with price_per_day := mkRat 19950 100 },
       [Effect.preview
         (format_preview { sampleListing with price_per_day := mkRat 19950 100 })]⟩ :=
  (edit_single_field_frame envOk sampleListing "Audi RS6" " luxury " "199.50"
      ["Q1"] ["Q2"] (mkRat 19950 100) "Q1" "Q2"
      (by decide) (by decide) (by decide) (by decide)).2.2.2.2.2.2.2.1

end CarRental
